import Mathlib

/-!
Shallow embedding of the "Vertex Aligner & Planarizer" Blender addon
(`src/__init__.py`).  Vertex coordinates are modelled as exact real
3-vectors; `mathutils.Vector.normalized()` is modelled as division by the
Euclidean norm, returning the zero vector when the input has zero length
(Blender's `normalize_v3_v3` zeroes the result when the squared length is
below its epsilon; in exact arithmetic that guard is `dot v v = 0`).

A scene holds the two property-group records (`VertexAxisAligner`,
`VertexPlaneAligner`) and the edit-mesh vertices, each vertex carrying its
coordinates and its selection flag.  Every operator's `execute` method is
translated as a function from the scene to the new scene paired with its
outcome; the early-`CANCELLED` branches of the source become `Except.error`
with the error kind the report message describes, and `FINISHED` becomes
`Except.ok ()`.
-/

noncomputable section

structure Vec3 where
  x : ℝ
  y : ℝ
  z : ℝ

instance : Zero Vec3 := ⟨⟨0, 0, 0⟩⟩
instance : Add Vec3 := ⟨fun a b => ⟨a.x + b.x, a.y + b.y, a.z + b.z⟩⟩
instance : Sub Vec3 := ⟨fun a b => ⟨a.x - b.x, a.y - b.y, a.z - b.z⟩⟩
instance : SMul ℝ Vec3 := ⟨fun c v => ⟨c * v.x, c * v.y, c * v.z⟩⟩

/-- Dot product, as `mathutils.Vector.dot`. -/
def Vec3.dot (a b : Vec3) : ℝ := a.x * b.x + a.y * b.y + a.z * b.z

/-- Cross product, as `mathutils.Vector.cross`. -/
def Vec3.cross (a b : Vec3) : Vec3 :=
  ⟨a.y * b.z - a.z * b.y, a.z * b.x - a.x * b.z, a.x * b.y - a.y * b.x⟩

open Classical in
/-- Normalization, as `mathutils.Vector.normalized()`: divides by the
Euclidean length, and returns the zero vector when the length is zero. -/
def Vec3.normalized (v : Vec3) : Vec3 :=
  if v.dot v = 0 then 0 else (Real.sqrt (v.dot v))⁻¹ • v

/-- The `VertexAxisAligner` property group (`axis_aligner` on the scene). -/
structure VertexAxisAligner where
  axis_defined : Bool
  is_displayed : Bool
  p1 : Vec3
  p2 : Vec3
  axis : Vec3

/-- The `VertexPlaneAligner` property group (`plane_aligner` on the scene). -/
structure VertexPlaneAligner where
  plane_defined : Bool
  p1 : Vec3
  p2 : Vec3
  p3 : Vec3
  normal : Vec3

/-- An edit-mesh vertex: its coordinates (`v.co`) and selection flag
(`v.select`). -/
structure Vertex where
  co : Vec3
  select : Bool

instance : Inhabited Vertex := ⟨⟨0, false⟩⟩

/-- The scene-level state the operators read and write. -/
structure Scene where
  axis_aligner : VertexAxisAligner
  plane_aligner : VertexPlaneAligner
  verts : List Vertex

/-- Error kinds reported on the `CANCELLED` paths, plus the condition the
`poll` classmethods gate on (operator unavailable while the reference is
undefined). -/
inductive OpErr where
  | insufficientSelection
  | referenceNotDefined
deriving DecidableEq

/-- The selection read every operator performs:
`[v for v in bm.verts if v.select == True]`. -/
def selected_verts_of (s : Scene) : List Vertex :=
  s.verts.filter (fun v => v.select)

/-- The coordinates of the selected vertices, in mesh order. -/
def selected_cos (s : Scene) : List Vec3 :=
  (selected_verts_of s).map (fun v => v.co)

/-- The per-point projection computed by `OBJECT_OT_align_vertices_on_axis`:
`projection = aa.p1 + (v.co - aa.p1).dot(aa.axis) * aa.axis`. -/
def align_point (p1 axis v : Vec3) : Vec3 :=
  p1 + ((v - p1).dot axis) • axis

/-- The per-point displacement applied by `OBJECT_OT_planarize_vertices`:
`displacement = (vertex.co - pa.p1).dot(pa.normal) * pa.normal;
 vertex.co -= displacement`. -/
def planarize_point (p1 normal v : Vec3) : Vec3 :=
  v - ((v - p1).dot normal) • normal

/-- Operator `OBJECT_OT_define_axis`, method `execute` (src/__init__.py
lines 94-112).  Note the source sets `aa.is_diplayed` (a misspelling), so
the stored `is_displayed` flag is in fact left unchanged. -/
def OBJECT_OT_define_axis.execute (s : Scene) : Scene × Except OpErr Unit :=
  let selected_verts := selected_verts_of s
  if selected_verts.length < 2 then
    (s, Except.error OpErr.insufficientSelection)
  else
    let v0 := selected_verts[0]!
    let v1 := selected_verts[1]!
    ({ s with axis_aligner := { s.axis_aligner with
        p1 := v0.co
        p2 := v1.co
        axis := (v1.co - v0.co).normalized
        axis_defined := true } },
      Except.ok ())

/-- Operator `OBJECT_OT_align_vertices_on_axis`, method `execute`
(lines 125-142). -/
def OBJECT_OT_align_vertices_on_axis.execute (s : Scene) : Scene × Except OpErr Unit :=
  let selected_verts := selected_verts_of s
  if selected_verts.length < 1 then
    (s, Except.error OpErr.insufficientSelection)
  else
    let aa := s.axis_aligner
    ({ s with verts := s.verts.map (fun v =>
        if v.select then { v with co := align_point aa.p1 aa.axis v.co } else v) },
      Except.ok ())

/-- Operator `OBJECT_OT_define_plane`, method `execute` (lines 171-189).
The source writes `pa.p2 = Vector(selected_verts[1].co)` and then
immediately `pa.p2 = Vector(selected_verts[2].co)`; `pa.p3` is never
assigned.  The sequential record updates below mirror those statements one
for one. -/
def OBJECT_OT_define_plane.execute (s : Scene) : Scene × Except OpErr Unit :=
  let selected_verts := selected_verts_of s
  if selected_verts.length ≠ 3 then
    (s, Except.error OpErr.insufficientSelection)
  else
    let v0 := selected_verts[0]!
    let v1 := selected_verts[1]!
    let v2 := selected_verts[2]!
    let pa := s.plane_aligner
    let pa := { pa with p1 := v0.co }
    let pa := { pa with p2 := v1.co }
    let pa := { pa with p2 := v2.co }
    let pa := { pa with normal := ((v1.co - v0.co).cross (v2.co - v0.co)).normalized }
    let pa := { pa with plane_defined := true }
    ({ s with plane_aligner := pa }, Except.ok ())

/-- Operator `OBJECT_OT_planarize_vertices`, method `execute`
(lines 201-212).  There is no selection-count check: the loop over selected
vertices simply runs zero or more times. -/
def OBJECT_OT_planarize_vertices.execute (s : Scene) : Scene × Except OpErr Unit :=
  let pa := s.plane_aligner
  ({ s with verts := s.verts.map (fun v =>
      if v.select then { v with co := planarize_point pa.p1 pa.normal v.co } else v) },
    Except.ok ())

/-- Operator `OBJECT_OT_display_axis`, method `execute` (lines 154-157). -/
def OBJECT_OT_display_axis.execute (s : Scene) : Scene × Except OpErr Unit :=
  ({ s with axis_aligner := { s.axis_aligner with
      is_displayed := !s.axis_aligner.is_displayed } },
    Except.ok ())

/-- The `poll` classmethod of `OBJECT_OT_define_axis` and
`OBJECT_OT_define_plane`: only requires edit-mesh mode, which the embedding
assumes throughout. -/
def define_poll (_ : Scene) : Bool := true

/-- The `poll` classmethod of `OBJECT_OT_align_vertices_on_axis` and
`OBJECT_OT_display_axis`: `context.scene.axis_aligner.axis_defined is True`. -/
def align_poll (s : Scene) : Bool := s.axis_aligner.axis_defined

/-- The `poll` classmethod of `OBJECT_OT_planarize_vertices`:
`context.scene.plane_aligner.plane_defined == True`. -/
def planarize_poll (s : Scene) : Bool := s.plane_aligner.plane_defined

/-- Running an operator through its `poll` gate: a poll failure leaves the
scene untouched (the operator cannot run; for the apply operators the
blocking condition is exactly that the reference is not defined). -/
def run_gated (poll : Scene → Bool) (execute : Scene → Scene × Except OpErr Unit)
    (s : Scene) : Scene × Except OpErr Unit :=
  if poll s then execute s else (s, Except.error OpErr.referenceNotDefined)

/-- The user-visible operations of a session, plus `hostEdit`, which stands
for the host application (or the user) arbitrarily editing the mesh and the
selection between operator invocations. -/
inductive Op where
  | defineAxis
  | alignVertices
  | displayAxis
  | definePlane
  | planarize
  | hostEdit (verts : List Vertex)

/-- One operator invocation, as the scene-state transition it causes. -/
def applyOp (s : Scene) : Op → Scene
  | Op.defineAxis => (run_gated define_poll OBJECT_OT_define_axis.execute s).1
  | Op.alignVertices => (run_gated align_poll OBJECT_OT_align_vertices_on_axis.execute s).1
  | Op.displayAxis => (run_gated align_poll OBJECT_OT_display_axis.execute s).1
  | Op.definePlane => (run_gated define_poll OBJECT_OT_define_plane.execute s).1
  | Op.planarize => (run_gated planarize_poll OBJECT_OT_planarize_vertices.execute s).1
  | Op.hostEdit verts => { s with verts := verts }

/-- A whole session: the operations performed, in order. -/
def runOps (s : Scene) : List Op → Scene
  | [] => s
  | op :: rest => runOps (applyOp s op) rest

/-- The axis invariant the code actually maintains: whenever the reference
is marked defined, its axis is a unit vector or the zero vector (both are
possible outputs of `normalized`). -/
def AxisRefOK (aa : VertexAxisAligner) : Prop :=
  aa.axis_defined = true → aa.axis.dot aa.axis = 1 ∨ aa.axis = 0

/-- Scene used to instantiate C1: axis defined as the x-axis from the
origin, one selected vertex at (1,1,1). -/
def c1s : Scene :=
  { axis_aligner := ⟨true, false, ⟨0, 0, 0⟩, ⟨2, 0, 0⟩, ⟨1, 0, 0⟩⟩
    plane_aligner := ⟨false, 0, 0, 0, 0⟩
    verts := [⟨⟨1, 1, 1⟩, true⟩] }

/-- Scene used to instantiate C2: plane z = 0, one selected vertex. -/
def c2s : Scene :=
  { axis_aligner := ⟨false, false, 0, 0, 0⟩
    plane_aligner := ⟨true, ⟨0, 0, 0⟩, ⟨1, 0, 0⟩, ⟨0, 1, 0⟩, ⟨0, 0, 1⟩⟩
    verts := [⟨⟨5, 5, 5⟩, true⟩] }

/-- Scene used for C3: the previous PlaneReference holds stale points, and
exactly the three vertices q1=(0,0,0), q2=(1,0,0), q3=(0,1,0) are selected. -/
def c3s : Scene :=
  { axis_aligner := ⟨false, false, 0, 0, 0⟩
    plane_aligner := ⟨false, ⟨7, 7, 7⟩, ⟨9, 9, 9⟩, ⟨8, 8, 8⟩, 0⟩
    verts := [⟨⟨0, 0, 0⟩, true⟩, ⟨⟨1, 0, 0⟩, true⟩, ⟨⟨0, 1, 0⟩, true⟩] }

/-- Scene exhibiting the C4 counterexample: the first two selected vertices
coincide, so `defineAxis` normalizes the zero vector. -/
def c4cex : Scene :=
  { axis_aligner := ⟨false, false, 0, 0, 0⟩
    plane_aligner := ⟨false, 0, 0, 0, 0⟩
    verts := [⟨⟨1, 2, 3⟩, true⟩, ⟨⟨1, 2, 3⟩, true⟩] }

/-- Scene used to instantiate the amended C4: two distinct selected
vertices. -/
def c4w : Scene :=
  { axis_aligner := ⟨false, false, 0, 0, 0⟩
    plane_aligner := ⟨false, 0, 0, 0, 0⟩
    verts := [⟨⟨0, 0, 0⟩, true⟩, ⟨⟨3, 0, 0⟩, true⟩] }

/-- Scene used to instantiate C5: two selected vertices (so `defineAxis`
succeeds from the first two and `definePlane` rejects the selection). -/
def c5s : Scene :=
  { axis_aligner := ⟨false, false, 0, 0, 0⟩
    plane_aligner := ⟨false, 0, 0, 0, 0⟩
    verts := [⟨⟨0, 0, 0⟩, true⟩, ⟨⟨2, 0, 0⟩, true⟩, ⟨⟨9, 9, 9⟩, false⟩] }

/-- Scene used to instantiate C6: no vertex selected. -/
def c6s : Scene :=
  { axis_aligner := ⟨true, false, 0, ⟨1, 0, 0⟩, ⟨1, 0, 0⟩⟩
    plane_aligner := ⟨true, 0, ⟨1, 0, 0⟩, ⟨0, 1, 0⟩, ⟨0, 0, 1⟩⟩
    verts := [⟨⟨4, 4, 4⟩, false⟩] }

/-- Scene used to instantiate C7: a single selected vertex, rejected by both
define operators. -/
def c7s : Scene :=
  { axis_aligner := ⟨true, true, ⟨1, 1, 1⟩, ⟨2, 2, 2⟩, ⟨3, 3, 3⟩⟩
    plane_aligner := ⟨true, ⟨4, 4, 4⟩, ⟨5, 5, 5⟩, ⟨6, 6, 6⟩, ⟨7, 7, 7⟩⟩
    verts := [⟨⟨0, 0, 0⟩, true⟩] }

/-- Axis reference used to instantiate C8. -/
def c8aa : VertexAxisAligner := ⟨true, false, 0, ⟨1, 0, 0⟩, Vec3.normalized ⟨1, 0, 0⟩⟩

/-- Plane reference used to instantiate C8. -/
def c8pa : VertexPlaneAligner := ⟨true, 0, 0, 0, Vec3.normalized ⟨0, 0, 1⟩⟩

/-- Scene used to instantiate C9. -/
def c9s : Scene :=
  { axis_aligner := ⟨false, false, 0, 0, 0⟩
    plane_aligner := ⟨true, ⟨0, 0, 0⟩, ⟨1, 0, 0⟩, ⟨0, 1, 0⟩, ⟨0, 0, 1⟩⟩
    verts := [⟨⟨5, 5, 5⟩, true⟩, ⟨⟨2, 2, 2⟩, false⟩] }

/-- A PlaneReference agreeing with the one of `c9s` on `p1` and `normal`
only. -/
def c9pa : VertexPlaneAligner := ⟨true, ⟨0, 0, 0⟩, ⟨77, 0, 3⟩, ⟨1, 55, 4⟩, ⟨0, 0, 1⟩⟩

/-- Scene used to instantiate C10: one selected and one unselected vertex,
references defined. -/
def c10s : Scene :=
  { axis_aligner := ⟨true, false, ⟨0, 0, 0⟩, ⟨1, 0, 0⟩, ⟨1, 0, 0⟩⟩
    plane_aligner := ⟨true, ⟨0, 0, 0⟩, ⟨1, 0, 0⟩, ⟨0, 1, 0⟩, ⟨0, 0, 1⟩⟩
    verts := [⟨⟨5, 5, 5⟩, true⟩, ⟨⟨9, 9, 9⟩, false⟩] }

@[ext] theorem Vec3.ext_fields (a b : Vec3)
    (hx : a.x = b.x) (hy : a.y = b.y) (hz : a.z = b.z) : a = b := by
  cases a; cases b; cases hx; cases hy; cases hz; rfl

theorem Vec3.zero_def : (0 : Vec3) = ⟨0, 0, 0⟩ := rfl

theorem Vec3.add_def (a b : Vec3) : a + b = ⟨a.x + b.x, a.y + b.y, a.z + b.z⟩ := rfl

theorem Vec3.sub_def (a b : Vec3) : a - b = ⟨a.x - b.x, a.y - b.y, a.z - b.z⟩ := rfl

theorem Vec3.smul_def (c : ℝ) (v : Vec3) : c • v = ⟨c * v.x, c * v.y, c * v.z⟩ := rfl

theorem Vec3.dot_self_nonneg (v : Vec3) : 0 ≤ v.dot v := by
  have hx := mul_self_nonneg v.x
  have hy := mul_self_nonneg v.y
  have hz := mul_self_nonneg v.z
  unfold Vec3.dot
  linarith

theorem Vec3.dot_self_eq_zero_iff (v : Vec3) : v.dot v = 0 ↔ v = 0 := by
  constructor
  · intro h
    have hx := mul_self_nonneg v.x
    have hy := mul_self_nonneg v.y
    have hz := mul_self_nonneg v.z
    unfold Vec3.dot at h
    ext
    · exact mul_self_eq_zero.mp (by linarith)
    · exact mul_self_eq_zero.mp (by linarith)
    · exact mul_self_eq_zero.mp (by linarith)
  · intro h
    subst h
    simp [Vec3.dot, Vec3.zero_def]

theorem Vec3.smul_dot (c : ℝ) (a b : Vec3) : (c • a).dot b = c * a.dot b := by
  simp [Vec3.smul_def, Vec3.dot]
  ring

theorem Vec3.add_sub_cancel_left (a b : Vec3) : a + b - a = b := by
  ext <;> simp [Vec3.add_def, Vec3.sub_def]

theorem Vec3.smul_zero_vec (c : ℝ) : c • (0 : Vec3) = 0 := by
  ext <;> simp [Vec3.smul_def, Vec3.zero_def]

theorem Vec3.add_zero_vec (a : Vec3) : a + 0 = a := by
  ext <;> simp [Vec3.add_def, Vec3.zero_def]

theorem Vec3.sub_zero_vec (a : Vec3) : a - 0 = a := by
  ext <;> simp [Vec3.sub_def, Vec3.zero_def]

theorem Vec3.zero_smul_vec (v : Vec3) : (0 : ℝ) • v = 0 := by
  ext <;> simp [Vec3.smul_def, Vec3.zero_def]

theorem Vec3.sub_dot (a b c : Vec3) : (a - b).dot c = a.dot c - b.dot c := by
  simp [Vec3.sub_def, Vec3.dot]
  ring

theorem Vec3.sub_sub_comm_vec (a b c : Vec3) : a - b - c = a - c - b := by
  ext <;> simp [Vec3.sub_def] <;> ring

theorem Vec3.sub_eq_zero_iff (a b : Vec3) : a - b = 0 ↔ a = b := by
  constructor
  · intro h
    have hx := congrArg Vec3.x h
    have hy := congrArg Vec3.y h
    have hz := congrArg Vec3.z h
    simp [Vec3.sub_def, Vec3.zero_def] at hx hy hz
    ext <;> simp [sub_eq_zero] at * <;> assumption
  · intro h
    subst h
    ext <;> simp [Vec3.sub_def, Vec3.zero_def]

/-- Normalization of any vector yields either a unit vector or the zero
vector: exactly the two outcomes of Blender's guarded normalization. -/
theorem Vec3.normalized_self_dot (v : Vec3) :
    (Vec3.normalized v).dot (Vec3.normalized v) = 1 ∨ Vec3.normalized v = 0 := by
  unfold Vec3.normalized
  by_cases h : v.dot v = 0
  · right
    simp [h]
  · left
    rw [if_neg h]
    have hnn : 0 ≤ v.dot v := Vec3.dot_self_nonneg v
    have hpos : 0 < v.dot v := lt_of_le_of_ne hnn (Ne.symm h)
    have hs : 0 < Real.sqrt (v.dot v) := Real.sqrt_pos.mpr hpos
    rw [Vec3.smul_dot]
    have hcomm : v.dot ((Real.sqrt (v.dot v))⁻¹ • v) = (Real.sqrt (v.dot v))⁻¹ * v.dot v := by
      simp [Vec3.smul_def, Vec3.dot]
      ring
    rw [hcomm, ← mul_assoc, ← mul_inv]
    rw [Real.mul_self_sqrt hnn]
    exact inv_mul_cancel₀ h

/-- For a nonzero vector, normalization produces a unit vector. -/
theorem Vec3.normalized_unit (v : Vec3) (hv : v ≠ 0) :
    (Vec3.normalized v).dot (Vec3.normalized v) = 1 := by
  rcases Vec3.normalized_self_dot v with h | h
  · exact h
  · exfalso
    apply hv
    have hd : v.dot v ≠ 0 → False := by
      intro hne
      unfold Vec3.normalized at h
      rw [if_neg hne] at h
      have hnn : 0 ≤ v.dot v := Vec3.dot_self_nonneg v
      have hpos : 0 < v.dot v := lt_of_le_of_ne hnn (Ne.symm hne)
      have hs : Real.sqrt (v.dot v) ≠ 0 := ne_of_gt (Real.sqrt_pos.mpr hpos)
      have hx := congrArg Vec3.x h
      have hy := congrArg Vec3.y h
      have hz := congrArg Vec3.z h
      simp [Vec3.smul_def, Vec3.zero_def, inv_eq_zero, hs] at hx hy hz
      have : v.dot v = 0 := by
        unfold Vec3.dot
        rw [hx, hy, hz]
        ring
      exact hne this
    by_cases hne : v.dot v = 0
    · exact (Vec3.dot_self_eq_zero_iff v).mp hne
    · exact absurd hne (fun hc => hd hc)

/-- In-place update of the selected vertices commutes with reading off the
selected coordinates: the selected coordinates afterwards are the map of the
update over the selected coordinates before, in the same order. -/
theorem filter_map_select_update (g : Vec3 → Vec3) (l : List Vertex) :
    ((l.map (fun v => if v.select then { v with co := g v.co } else v)).filter
        (fun v => v.select)).map (fun v => v.co)
      = (((l.filter (fun v => v.select)).map (fun v => v.co)).map g) := by
  induction l with
  | nil => simp
  | cons v t ih =>
    obtain ⟨co, sel⟩ := v
    cases sel <;> simp [ih]

/-- With no vertex selected, the in-place update loop runs zero times. -/
theorem map_update_of_no_select (g : Vec3 → Vec3) (l : List Vertex)
    (h : l.filter (fun v => v.select) = []) :
    l.map (fun v => if v.select then { v with co := g v.co } else v) = l := by
  induction l with
  | nil => simp
  | cons v t ih =>
    obtain ⟨co, sel⟩ := v
    cases sel with
    | false =>
      simp only [List.filter] at h
      simp only [List.map]
      rw [ih h]
      simp
    | true =>
      simp [List.filter] at h

/-- Projecting onto the line a second time does nothing, provided the axis
is a unit vector or the zero vector (the two shapes `normalized` can
produce). -/
theorem align_point_idem (p1 a v : Vec3) (h : a.dot a = 1 ∨ a = 0) :
    align_point p1 a (align_point p1 a v) = align_point p1 a v := by
  rcases h with h | h
  · unfold align_point
    rw [Vec3.add_sub_cancel_left, Vec3.smul_dot, h, mul_one]
  · subst h
    unfold align_point
    simp only [Vec3.smul_zero_vec, Vec3.add_zero_vec]

/-- Projecting onto the plane a second time does nothing, provided the
normal is a unit vector or the zero vector. -/
theorem planarize_point_idem (p n v : Vec3) (h : n.dot n = 1 ∨ n = 0) :
    planarize_point p n (planarize_point p n v) = planarize_point p n v := by
  rcases h with h | h
  · unfold planarize_point
    have h1 : ((v - ((v - p).dot n) • n) - p).dot n = 0 := by
      rw [Vec3.sub_sub_comm_vec, Vec3.sub_dot, Vec3.smul_dot, h, mul_one, sub_self]
    rw [h1, Vec3.zero_smul_vec, Vec3.sub_zero_vec]
  · subst h
    unfold planarize_point
    simp only [Vec3.smul_zero_vec, Vec3.sub_zero_vec]

/-- What `OBJECT_OT_define_axis.execute` does when at least two vertices are
selected: it overwrites `p1`, `p2`, `axis` from the first two selected
vertices and sets `axis_defined`. -/
theorem define_axis_execute_success (s : Scene) (v0 v1 : Vertex) (rest : List Vertex)
    (hsel : selected_verts_of s = v0 :: v1 :: rest) :
    OBJECT_OT_define_axis.execute s =
      ({ s with axis_aligner := { s.axis_aligner with
          p1 := v0.co
          p2 := v1.co
          axis := (v1.co - v0.co).normalized
          axis_defined := true } },
        Except.ok ()) := by
  unfold OBJECT_OT_define_axis.execute
  have hlen : ¬ (selected_verts_of s).length < 2 := by
    rw [hsel]
    simp
  rw [if_neg hlen, hsel]
  simp

/-- What `OBJECT_OT_define_plane.execute` does when exactly three vertices
are selected: because the source assigns `pa.p2` twice and never `pa.p3`,
the stored `p2` ends up holding the THIRD selected point and `p3` keeps its
previous value. -/
theorem define_plane_execute_success (s : Scene) (v0 v1 v2 : Vertex)
    (hsel : selected_verts_of s = [v0, v1, v2]) :
    OBJECT_OT_define_plane.execute s =
      ({ s with plane_aligner := { s.plane_aligner with
          p1 := v0.co
          p2 := v2.co
          normal := ((v1.co - v0.co).cross (v2.co - v0.co)).normalized
          plane_defined := true } },
        Except.ok ()) := by
  unfold OBJECT_OT_define_plane.execute
  have hlen : ¬ (selected_verts_of s).length ≠ 3 := by
    rw [hsel]
    simp
  rw [if_neg hlen, hsel]
  simp

/-- Every single operator invocation preserves the axis invariant. -/
theorem applyOp_axisRefOK (s : Scene) (op : Op) (h : AxisRefOK s.axis_aligner) :
    AxisRefOK ((applyOp s op).axis_aligner) := by
  cases op with
  | defineAxis =>
    show AxisRefOK ((run_gated define_poll OBJECT_OT_define_axis.execute s).1).axis_aligner
    unfold run_gated define_poll
    rw [if_pos rfl]
    unfold OBJECT_OT_define_axis.execute
    by_cases hl : (selected_verts_of s).length < 2
    · rw [if_pos hl]
      exact h
    · rw [if_neg hl]
      intro _
      exact Vec3.normalized_self_dot _
  | alignVertices =>
    show AxisRefOK ((run_gated align_poll OBJECT_OT_align_vertices_on_axis.execute s).1).axis_aligner
    unfold run_gated
    by_cases hp : align_poll s = true
    · rw [if_pos hp]
      unfold OBJECT_OT_align_vertices_on_axis.execute
      by_cases hl : (selected_verts_of s).length < 1
      · rw [if_pos hl]
        exact h
      · rw [if_neg hl]
        exact h
    · rw [if_neg hp]
      exact h
  | displayAxis =>
    show AxisRefOK ((run_gated align_poll OBJECT_OT_display_axis.execute s).1).axis_aligner
    unfold run_gated
    by_cases hp : align_poll s = true
    · rw [if_pos hp]
      exact h
    · rw [if_neg hp]
      exact h
  | definePlane =>
    show AxisRefOK ((run_gated define_poll OBJECT_OT_define_plane.execute s).1).axis_aligner
    unfold run_gated define_poll
    rw [if_pos rfl]
    unfold OBJECT_OT_define_plane.execute
    by_cases hl : (selected_verts_of s).length ≠ 3
    · rw [if_pos hl]
      exact h
    · rw [if_neg hl]
      exact h
  | planarize =>
    show AxisRefOK ((run_gated planarize_poll OBJECT_OT_planarize_vertices.execute s).1).axis_aligner
    unfold run_gated
    by_cases hp : planarize_poll s = true
    · rw [if_pos hp]
      exact h
    · rw [if_neg hp]
      exact h
  | hostEdit verts =>
    exact h

/-- The axis invariant is preserved along any whole session. -/
theorem runOps_axisRefOK (ops : List Op) (s : Scene) (h : AxisRefOK s.axis_aligner) :
    AxisRefOK ((runOps s ops).axis_aligner) := by
  induction ops generalizing s with
  | nil => exact h
  | cons op rest ih => exact ih (applyOp s op) (applyOp_axisRefOK s op h)

/-- Per-index frame fact about the in-place update loop both apply
operators run: selection flags are never changed, and an unselected vertex
is untouched. -/
theorem verts_update_frame (g : Vec3 → Vec3) (l : List Vertex) (i : ℕ) (v : Vertex)
    (h : l[i]? = some v) :
    ((l.map (fun w => if w.select then { w with co := g w.co } else w))[i]?).map
        Vertex.select = some v.select ∧
    (v.select = false →
      (l.map (fun w => if w.select then { w with co := g w.co } else w))[i]? = some v) := by
  rw [List.getElem?_map, h]
  constructor
  · cases hv : v.select <;> simp [hv]
  · intro hf
    simp [hf]

/-- C1: for every defined AxisReference and every (nonempty) selection,
`alignToAxis` succeeds and maps each selected point `v` to
`p1 + dot(v - p1, axis) * axis`, returning the projections in the order of
the input selection.  (The empty selection is rejected instead; that case
is claim C6.) -/
theorem claim_C1_align_formula (s : Scene)
    (hdef : s.axis_aligner.axis_defined = true)
    (hne : selected_cos s ≠ []) :
    (OBJECT_OT_align_vertices_on_axis.execute s).2 = Except.ok () ∧
    selected_cos (OBJECT_OT_align_vertices_on_axis.execute s).1 =
      (selected_cos s).map (fun v =>
        s.axis_aligner.p1 +
          ((v - s.axis_aligner.p1).dot s.axis_aligner.axis) • s.axis_aligner.axis) := by
  have hlen : ¬ (selected_verts_of s).length < 1 := by
    intro hc
    apply hne
    have h0 : selected_verts_of s = [] := List.length_eq_zero.mp (by omega)
    unfold selected_cos
    rw [h0]
    rfl
  unfold OBJECT_OT_align_vertices_on_axis.execute
  rw [if_neg hlen]
  refine ⟨rfl, ?_⟩
  have h := filter_map_select_update
    (align_point s.axis_aligner.p1 s.axis_aligner.axis) s.verts
  simpa [selected_cos, selected_verts_of, align_point] using h

theorem claim_C1_align_formula_witness :
    c1s.axis_aligner.axis_defined = true ∧ selected_cos c1s ≠ [] ∧
    ((OBJECT_OT_align_vertices_on_axis.execute c1s).2 = Except.ok () ∧
     selected_cos (OBJECT_OT_align_vertices_on_axis.execute c1s).1 =
       (selected_cos c1s).map (fun v =>
         c1s.axis_aligner.p1 +
           ((v - c1s.axis_aligner.p1).dot c1s.axis_aligner.axis) • c1s.axis_aligner.axis)) :=
  ⟨rfl, by simp [selected_cos, selected_verts_of, c1s],
    claim_C1_align_formula c1s rfl (by simp [selected_cos, selected_verts_of, c1s])⟩

/-- C2: for every defined PlaneReference, `planarize` succeeds and replaces
each selected point `v` by `v - dot(v - p1, normal) * normal`, preserving
input order. -/
theorem claim_C2_planarize_formula (s : Scene)
    (hdef : s.plane_aligner.plane_defined = true) :
    (OBJECT_OT_planarize_vertices.execute s).2 = Except.ok () ∧
    selected_cos (OBJECT_OT_planarize_vertices.execute s).1 =
      (selected_cos s).map (fun v =>
        v - ((v - s.plane_aligner.p1).dot s.plane_aligner.normal) • s.plane_aligner.normal) := by
  refine ⟨rfl, ?_⟩
  have h := filter_map_select_update
    (planarize_point s.plane_aligner.p1 s.plane_aligner.normal) s.verts
  simpa [OBJECT_OT_planarize_vertices.execute, selected_cos, selected_verts_of,
    planarize_point] using h

theorem claim_C2_planarize_formula_witness :
    c2s.plane_aligner.plane_defined = true ∧
    ((OBJECT_OT_planarize_vertices.execute c2s).2 = Except.ok () ∧
     selected_cos (OBJECT_OT_planarize_vertices.execute c2s).1 =
       (selected_cos c2s).map (fun v =>
         v - ((v - c2s.plane_aligner.p1).dot c2s.plane_aligner.normal) • c2s.plane_aligner.normal)) :=
  ⟨rfl, claim_C2_planarize_formula c2s rfl⟩

/-- C3 is a code bug: on a successful `definePlane` over q1, q2, q3 the
source assigns `pa.p2` twice (first q2, then q3) and never assigns `pa.p3`,
so afterwards `p2 == q3` (not q2) and `p3` keeps its stale previous value
(not q3); `p1`, `normal` and the defined flag are set as the claim states. -/
theorem claim_C3_define_plane_bug :
    (OBJECT_OT_define_plane.execute c3s).2 = Except.ok () ∧
    (OBJECT_OT_define_plane.execute c3s).1.plane_aligner.p1 = ⟨0, 0, 0⟩ ∧
    (OBJECT_OT_define_plane.execute c3s).1.plane_aligner.p2 = ⟨0, 1, 0⟩ ∧
    (OBJECT_OT_define_plane.execute c3s).1.plane_aligner.p2 ≠ ⟨1, 0, 0⟩ ∧
    (OBJECT_OT_define_plane.execute c3s).1.plane_aligner.p3 = ⟨8, 8, 8⟩ ∧
    (OBJECT_OT_define_plane.execute c3s).1.plane_aligner.p3 ≠ ⟨0, 1, 0⟩ ∧
    (OBJECT_OT_define_plane.execute c3s).1.plane_aligner.plane_defined = true ∧
    (OBJECT_OT_define_plane.execute c3s).1.plane_aligner.normal = ⟨0, 0, 1⟩ := by
  have hsel : selected_verts_of c3s =
      [⟨⟨0, 0, 0⟩, true⟩, ⟨⟨1, 0, 0⟩, true⟩, ⟨⟨0, 1, 0⟩, true⟩] := rfl
  have hx := define_plane_execute_success c3s
    ⟨⟨0, 0, 0⟩, true⟩ ⟨⟨1, 0, 0⟩, true⟩ ⟨⟨0, 1, 0⟩, true⟩ hsel
  rw [hx]
  have hnormal : ((Vec3.mk 1 0 0 - Vec3.mk 0 0 0).cross
      (Vec3.mk 0 1 0 - Vec3.mk 0 0 0)).normalized = ⟨0, 0, 1⟩ := by
    have hc : (Vec3.mk 1 0 0 - Vec3.mk 0 0 0).cross (Vec3.mk 0 1 0 - Vec3.mk 0 0 0) =
        Vec3.mk 0 0 1 := by
      ext <;> simp [Vec3.sub_def, Vec3.cross]
    rw [hc]
    unfold Vec3.normalized
    rw [if_neg (by simp [Vec3.dot])]
    ext <;> simp [Vec3.dot, Vec3.smul_def, Real.sqrt_one]
  refine ⟨rfl, rfl, hnormal ▸ ⟨rfl, ?_, rfl, ?_, rfl, ?_⟩⟩
  · intro h
    have h1 := congrArg Vec3.x h
    norm_num at h1
  · intro h
    have h1 := congrArg Vec3.x h
    norm_num [c3s] at h1
  · rfl

/-- C4 as stated is false: running `defineAxis` on a selection whose first
two points coincide leaves the reference marked defined while its axis is
the ZERO vector (Blender's `normalized()` returns the zero vector, and the
source has no degeneracy guard), so the axis is neither non-zero nor of
unit length. -/
theorem claim_C4_counterexample :
    (runOps c4cex [Op.defineAxis]).axis_aligner.axis_defined = true ∧
    (runOps c4cex [Op.defineAxis]).axis_aligner.axis = 0 ∧
    ((runOps c4cex [Op.defineAxis]).axis_aligner.axis).dot
      ((runOps c4cex [Op.defineAxis]).axis_aligner.axis) ≠ 1 := by
  have hrun : runOps c4cex [Op.defineAxis] = (OBJECT_OT_define_axis.execute c4cex).1 := by
    show (run_gated define_poll OBJECT_OT_define_axis.execute c4cex).1 =
      (OBJECT_OT_define_axis.execute c4cex).1
    unfold run_gated define_poll
    rw [if_pos rfl]
  have hsel : selected_verts_of c4cex = [⟨⟨1, 2, 3⟩, true⟩, ⟨⟨1, 2, 3⟩, true⟩] := rfl
  have hx := define_axis_execute_success c4cex
    ⟨⟨1, 2, 3⟩, true⟩ ⟨⟨1, 2, 3⟩, true⟩ [] hsel
  have hzero : (Vec3.mk 1 2 3 - Vec3.mk 1 2 3).normalized = 0 := by
    have hsub : Vec3.mk 1 2 3 - Vec3.mk 1 2 3 = 0 := by
      ext <;> simp [Vec3.sub_def, Vec3.zero_def]
    rw [hsub]
    unfold Vec3.normalized
    rw [if_pos (by simp [Vec3.dot, Vec3.zero_def])]
  rw [hrun, hx]
  refine ⟨rfl, hzero, ?_⟩
  rw [show ((Vec3.mk 1 2 3 - Vec3.mk 1 2 3).normalized) = 0 from hzero]
  simp [Vec3.dot, Vec3.zero_def]

/-- C4 amended: after any sequence of operations (starting from any state
satisfying the invariant the code maintains, e.g. the initial undefined
reference), whenever the AxisReference is marked defined its axis is a
unit vector OR the zero vector; after `defineAxis` it is a non-zero unit
vector exactly under the extra proviso that the first two selected points
are distinct — when they coincide the zero vector is stored instead. -/
theorem claim_C4_amended_invariant :
    (∀ (s : Scene) (ops : List Op),
      AxisRefOK s.axis_aligner → AxisRefOK ((runOps s ops).axis_aligner)) ∧
    (∀ (s : Scene) (v0 v1 : Vertex) (rest : List Vertex),
      selected_verts_of s = v0 :: v1 :: rest → v0.co ≠ v1.co →
      (OBJECT_OT_define_axis.execute s).1.axis_aligner.axis_defined = true ∧
      ((OBJECT_OT_define_axis.execute s).1.axis_aligner.axis).dot
        ((OBJECT_OT_define_axis.execute s).1.axis_aligner.axis) = 1 ∧
      (OBJECT_OT_define_axis.execute s).1.axis_aligner.axis ≠ 0) := by
  constructor
  · intro s ops h
    exact runOps_axisRefOK ops s h
  · intro s v0 v1 rest hsel hne
    rw [define_axis_execute_success s v0 v1 rest hsel]
    have hdiff : v1.co - v0.co ≠ 0 := by
      intro hc
      exact hne ((Vec3.sub_eq_zero_iff v1.co v0.co).mp hc).symm
    have hunit := Vec3.normalized_unit (v1.co - v0.co) hdiff
    refine ⟨rfl, hunit, ?_⟩
    intro hc
    rw [show ((v1.co - v0.co).normalized) = 0 from hc] at hunit
    simp [Vec3.dot, Vec3.zero_def] at hunit

theorem claim_C4_amended_invariant_witness :
    AxisRefOK c4w.axis_aligner ∧
    AxisRefOK ((runOps c4w [Op.defineAxis, Op.alignVertices]).axis_aligner) ∧
    selected_verts_of c4w = ⟨⟨0, 0, 0⟩, true⟩ :: ⟨⟨3, 0, 0⟩, true⟩ :: [] ∧
    (Vertex.mk ⟨0, 0, 0⟩ true).co ≠ (Vertex.mk ⟨3, 0, 0⟩ true).co ∧
    ((OBJECT_OT_define_axis.execute c4w).1.axis_aligner.axis_defined = true ∧
     ((OBJECT_OT_define_axis.execute c4w).1.axis_aligner.axis).dot
       ((OBJECT_OT_define_axis.execute c4w).1.axis_aligner.axis) = 1 ∧
     (OBJECT_OT_define_axis.execute c4w).1.axis_aligner.axis ≠ 0) := by
  have h0 : AxisRefOK c4w.axis_aligner := by
    intro h
    simp [c4w] at h
  have hne : (Vertex.mk ⟨0, 0, 0⟩ true).co ≠ (Vertex.mk ⟨3, 0, 0⟩ true).co := by
    intro h
    have h1 := congrArg Vec3.x h
    norm_num at h1
  exact ⟨h0, claim_C4_amended_invariant.1 c4w [Op.defineAxis, Op.alignVertices] h0, rfl, hne,
    claim_C4_amended_invariant.2 c4w ⟨⟨0, 0, 0⟩, true⟩ ⟨⟨3, 0, 0⟩, true⟩ [] rfl hne⟩

/-- C5: `defineAxis` reports `InsufficientSelection` exactly when fewer than
two vertices are selected; with two or more it succeeds, using the first two
selected vertices in selection order; and `definePlane` reports
`InsufficientSelection` exactly when the selection count differs from 3
(both fewer and more than 3 are rejected). -/
theorem claim_C5_selection_counts (s : Scene) :
    ((OBJECT_OT_define_axis.execute s).2 = Except.error OpErr.insufficientSelection ↔
      (selected_verts_of s).length < 2) ∧
    (∀ v0 v1 rest, selected_verts_of s = v0 :: v1 :: rest →
      (OBJECT_OT_define_axis.execute s).2 = Except.ok () ∧
      (OBJECT_OT_define_axis.execute s).1.axis_aligner.p1 = v0.co ∧
      (OBJECT_OT_define_axis.execute s).1.axis_aligner.p2 = v1.co ∧
      (OBJECT_OT_define_axis.execute s).1.axis_aligner.axis = (v1.co - v0.co).normalized ∧
      (OBJECT_OT_define_axis.execute s).1.axis_aligner.axis_defined = true) ∧
    ((OBJECT_OT_define_plane.execute s).2 = Except.error OpErr.insufficientSelection ↔
      (selected_verts_of s).length ≠ 3) := by
  refine ⟨?_, ?_, ?_⟩
  · unfold OBJECT_OT_define_axis.execute
    by_cases h : (selected_verts_of s).length < 2
    · rw [if_pos h]
      simpa using h
    · rw [if_neg h]
      simpa using h
  · intro v0 v1 rest hsel
    rw [define_axis_execute_success s v0 v1 rest hsel]
    exact ⟨rfl, rfl, rfl, rfl, rfl⟩
  · unfold OBJECT_OT_define_plane.execute
    by_cases h : (selected_verts_of s).length ≠ 3
    · rw [if_pos h]
      simpa using h
    · rw [if_neg h]
      simpa using h

theorem claim_C5_selection_counts_witness :
    selected_verts_of c5s = ⟨⟨0, 0, 0⟩, true⟩ :: ⟨⟨2, 0, 0⟩, true⟩ :: [] ∧
    ((OBJECT_OT_define_axis.execute c5s).2 = Except.error OpErr.insufficientSelection ↔
      (selected_verts_of c5s).length < 2) ∧
    ((OBJECT_OT_define_axis.execute c5s).2 = Except.ok () ∧
     (OBJECT_OT_define_axis.execute c5s).1.axis_aligner.p1 = ⟨0, 0, 0⟩ ∧
     (OBJECT_OT_define_axis.execute c5s).1.axis_aligner.p2 = ⟨2, 0, 0⟩ ∧
     (OBJECT_OT_define_axis.execute c5s).1.axis_aligner.axis =
       (Vec3.mk 2 0 0 - Vec3.mk 0 0 0).normalized ∧
     (OBJECT_OT_define_axis.execute c5s).1.axis_aligner.axis_defined = true) ∧
    ((OBJECT_OT_define_plane.execute c5s).2 = Except.error OpErr.insufficientSelection ↔
      (selected_verts_of c5s).length ≠ 3) :=
  ⟨rfl, (claim_C5_selection_counts c5s).1,
    (claim_C5_selection_counts c5s).2.1 ⟨⟨0, 0, 0⟩, true⟩ ⟨⟨2, 0, 0⟩, true⟩ [] rfl,
    (claim_C5_selection_counts c5s).2.2⟩

/-- C6: with an empty selection, `alignToAxis` fails with
`InsufficientSelection`, while `planarize` succeeds for every selection
count (and with an empty selection it changes nothing) — the minimum-count
requirement is asymmetric between the two apply operations. -/
theorem claim_C6_empty_selection (s : Scene) :
    (selected_verts_of s = [] →
      (OBJECT_OT_align_vertices_on_axis.execute s).2 =
        Except.error OpErr.insufficientSelection) ∧
    (OBJECT_OT_planarize_vertices.execute s).2 = Except.ok () ∧
    (selected_verts_of s = [] → (OBJECT_OT_planarize_vertices.execute s).1 = s) := by
  refine ⟨?_, rfl, ?_⟩
  · intro h
    unfold OBJECT_OT_align_vertices_on_axis.execute
    rw [if_pos]
    rw [h]
    simp
  · intro h
    unfold OBJECT_OT_planarize_vertices.execute
    have hmap := map_update_of_no_select
      (planarize_point s.plane_aligner.p1 s.plane_aligner.normal) s.verts h
    show { s with verts := _ } = s
    rw [hmap]

theorem claim_C6_empty_selection_witness :
    selected_verts_of c6s = [] ∧
    (OBJECT_OT_align_vertices_on_axis.execute c6s).2 =
      Except.error OpErr.insufficientSelection ∧
    (OBJECT_OT_planarize_vertices.execute c6s).2 = Except.ok () ∧
    (OBJECT_OT_planarize_vertices.execute c6s).1 = c6s :=
  ⟨rfl, (claim_C6_empty_selection c6s).1 rfl, (claim_C6_empty_selection c6s).2.1,
    (claim_C6_empty_selection c6s).2.2 rfl⟩

/-- C7: when `defineAxis` or `definePlane` fails validation, the whole scene
— in particular the corresponding reference record, every field of it
including the defined flag — is exactly as it was before the call. -/
theorem claim_C7_atomic_failure (s : Scene) (e1 e2 : OpErr) :
    ((OBJECT_OT_define_axis.execute s).2 = Except.error e1 →
      (OBJECT_OT_define_axis.execute s).1.axis_aligner = s.axis_aligner ∧
      (OBJECT_OT_define_axis.execute s).1 = s) ∧
    ((OBJECT_OT_define_plane.execute s).2 = Except.error e2 →
      (OBJECT_OT_define_plane.execute s).1.plane_aligner = s.plane_aligner ∧
      (OBJECT_OT_define_plane.execute s).1 = s) := by
  constructor
  · intro h
    unfold OBJECT_OT_define_axis.execute at *
    by_cases hl : (selected_verts_of s).length < 2
    · rw [if_pos hl]
      exact ⟨rfl, rfl⟩
    · rw [if_neg hl] at h
      simp at h
  · intro h
    unfold OBJECT_OT_define_plane.execute at *
    by_cases hl : (selected_verts_of s).length ≠ 3
    · rw [if_pos hl]
      exact ⟨rfl, rfl⟩
    · rw [if_neg hl] at h
      simp at h

theorem claim_C7_atomic_failure_witness :
    (OBJECT_OT_define_axis.execute c7s).2 = Except.error OpErr.insufficientSelection ∧
    (OBJECT_OT_define_plane.execute c7s).2 = Except.error OpErr.insufficientSelection ∧
    ((OBJECT_OT_define_axis.execute c7s).1.axis_aligner = c7s.axis_aligner ∧
     (OBJECT_OT_define_axis.execute c7s).1 = c7s) ∧
    ((OBJECT_OT_define_plane.execute c7s).1.plane_aligner = c7s.plane_aligner ∧
     (OBJECT_OT_define_plane.execute c7s).1 = c7s) := by
  have h1 : (OBJECT_OT_define_axis.execute c7s).2 =
      Except.error OpErr.insufficientSelection := by
    unfold OBJECT_OT_define_axis.execute
    rw [if_pos]
    show (selected_verts_of c7s).length < 2
    simp [selected_verts_of, c7s]
  have h2 : (OBJECT_OT_define_plane.execute c7s).2 =
      Except.error OpErr.insufficientSelection := by
    unfold OBJECT_OT_define_plane.execute
    rw [if_pos]
    show (selected_verts_of c7s).length ≠ 3
    simp [selected_verts_of, c7s]
  exact ⟨h1, h2,
    (claim_C7_atomic_failure c7s OpErr.insufficientSelection OpErr.insufficientSelection).1 h1,
    (claim_C7_atomic_failure c7s OpErr.insufficientSelection OpErr.insufficientSelection).2 h2⟩

/-- C8: for any defined references whose axis and normal were produced by
`normalized` (as every reference written by the define operators is),
applying the axis projection twice to a point equals applying it once, and
likewise for the plane projection — exact equality in exact arithmetic. -/
theorem claim_C8_idempotence (aa : VertexAxisAligner) (pa : VertexPlaneAligner)
    (u w v : Vec3)
    (hda : aa.axis_defined = true) (ha : aa.axis = Vec3.normalized u)
    (hdp : pa.plane_defined = true) (hp : pa.normal = Vec3.normalized w) :
    align_point aa.p1 aa.axis (align_point aa.p1 aa.axis v) =
      align_point aa.p1 aa.axis v ∧
    planarize_point pa.p1 pa.normal (planarize_point pa.p1 pa.normal v) =
      planarize_point pa.p1 pa.normal v := by
  constructor
  · apply align_point_idem
    rw [ha]
    exact Vec3.normalized_self_dot u
  · apply planarize_point_idem
    rw [hp]
    exact Vec3.normalized_self_dot w

theorem claim_C8_idempotence_witness :
    c8aa.axis_defined = true ∧ c8aa.axis = Vec3.normalized ⟨1, 0, 0⟩ ∧
    c8pa.plane_defined = true ∧ c8pa.normal = Vec3.normalized ⟨0, 0, 1⟩ ∧
    (align_point c8aa.p1 c8aa.axis (align_point c8aa.p1 c8aa.axis ⟨1, 2, 3⟩) =
       align_point c8aa.p1 c8aa.axis ⟨1, 2, 3⟩ ∧
     planarize_point c8pa.p1 c8pa.normal (planarize_point c8pa.p1 c8pa.normal ⟨1, 2, 3⟩) =
       planarize_point c8pa.p1 c8pa.normal ⟨1, 2, 3⟩) :=
  ⟨rfl, rfl, rfl, rfl,
    claim_C8_idempotence c8aa c8pa ⟨1, 0, 0⟩ ⟨0, 0, 1⟩ ⟨1, 2, 3⟩ rfl rfl rfl rfl⟩

/-- C9: the result of `planarize` depends only on the reference's `p1` and
`normal` fields (and the input vertices): two defined PlaneReferences that
agree on `p1` and `normal` but differ arbitrarily in `p2` and `p3` produce
identical vertices. -/
theorem claim_C9_planarize_depends_only_p1_normal (s : Scene)
    (pa2 : VertexPlaneAligner)
    (h1 : pa2.p1 = s.plane_aligner.p1) (hn : pa2.normal = s.plane_aligner.normal)
    (hd : s.plane_aligner.plane_defined = true) (hd2 : pa2.plane_defined = true) :
    (OBJECT_OT_planarize_vertices.execute { s with plane_aligner := pa2 }).1.verts =
      (OBJECT_OT_planarize_vertices.execute s).1.verts := by
  unfold OBJECT_OT_planarize_vertices.execute
  show s.verts.map _ = s.verts.map _
  rw [show ({ s with plane_aligner := pa2 } : Scene).plane_aligner = pa2 from rfl, h1, hn]

theorem claim_C9_planarize_depends_only_p1_normal_witness :
    c9pa.p1 = c9s.plane_aligner.p1 ∧ c9pa.normal = c9s.plane_aligner.normal ∧
    c9s.plane_aligner.plane_defined = true ∧ c9pa.plane_defined = true ∧
    c9pa.p2 ≠ c9s.plane_aligner.p2 ∧ c9pa.p3 ≠ c9s.plane_aligner.p3 ∧
    (OBJECT_OT_planarize_vertices.execute { c9s with plane_aligner := c9pa }).1.verts =
      (OBJECT_OT_planarize_vertices.execute c9s).1.verts :=
  ⟨rfl, rfl, rfl, rfl,
    fun h => by have h1 := congrArg Vec3.x h; norm_num [c9pa, c9s] at h1,
    fun h => by have h1 := congrArg Vec3.y h; norm_num [c9pa, c9s] at h1,
    claim_C9_planarize_depends_only_p1_normal c9s c9pa rfl rfl rfl rfl⟩

/-- C10 (frame property): both apply operators leave every field of both
reference records unchanged, never change any selection flag, and leave
every unselected vertex (coordinates included) untouched. -/
theorem claim_C10_frame (s : Scene) :
    ((OBJECT_OT_align_vertices_on_axis.execute s).1.axis_aligner = s.axis_aligner ∧
     (OBJECT_OT_align_vertices_on_axis.execute s).1.plane_aligner = s.plane_aligner ∧
     (OBJECT_OT_planarize_vertices.execute s).1.axis_aligner = s.axis_aligner ∧
     (OBJECT_OT_planarize_vertices.execute s).1.plane_aligner = s.plane_aligner) ∧
    (∀ (i : ℕ) (v : Vertex), s.verts[i]? = some v →
      (((OBJECT_OT_align_vertices_on_axis.execute s).1.verts[i]?).map Vertex.select =
         some v.select ∧
       ((OBJECT_OT_planarize_vertices.execute s).1.verts[i]?).map Vertex.select =
         some v.select) ∧
      (v.select = false →
        (OBJECT_OT_align_vertices_on_axis.execute s).1.verts[i]? = some v ∧
        (OBJECT_OT_planarize_vertices.execute s).1.verts[i]? = some v)) := by
  unfold OBJECT_OT_align_vertices_on_axis.execute OBJECT_OT_planarize_vertices.execute
  by_cases hl : (selected_verts_of s).length < 1
  · rw [if_pos hl]
    refine ⟨⟨rfl, rfl, rfl, rfl⟩, ?_⟩
    intro i v h
    have hp := verts_update_frame
      (planarize_point s.plane_aligner.p1 s.plane_aligner.normal) s.verts i v h
    exact ⟨⟨by rw [h]; rfl, hp.1⟩, fun hf => ⟨h, hp.2 hf⟩⟩
  · rw [if_neg hl]
    refine ⟨⟨rfl, rfl, rfl, rfl⟩, ?_⟩
    intro i v h
    have ha := verts_update_frame
      (align_point s.axis_aligner.p1 s.axis_aligner.axis) s.verts i v h
    have hp := verts_update_frame
      (planarize_point s.plane_aligner.p1 s.plane_aligner.normal) s.verts i v h
    exact ⟨⟨ha.1, hp.1⟩, fun hf => ⟨ha.2 hf, hp.2 hf⟩⟩

theorem claim_C10_frame_witness :
    c10s.verts[1]? = some ⟨⟨9, 9, 9⟩, false⟩ ∧
    ((OBJECT_OT_align_vertices_on_axis.execute c10s).1.axis_aligner = c10s.axis_aligner ∧
     (OBJECT_OT_align_vertices_on_axis.execute c10s).1.plane_aligner = c10s.plane_aligner ∧
     (OBJECT_OT_planarize_vertices.execute c10s).1.axis_aligner = c10s.axis_aligner ∧
     (OBJECT_OT_planarize_vertices.execute c10s).1.plane_aligner = c10s.plane_aligner) ∧
    (OBJECT_OT_align_vertices_on_axis.execute c10s).1.verts[1]? =
      some ⟨⟨9, 9, 9⟩, false⟩ ∧
    (OBJECT_OT_planarize_vertices.execute c10s).1.verts[1]? =
      some ⟨⟨9, 9, 9⟩, false⟩ :=
  ⟨rfl, (claim_C10_frame c10s).1,
    ((claim_C10_frame c10s).2 1 ⟨⟨9, 9, 9⟩, false⟩ rfl).2 rfl |>.1,
    ((claim_C10_frame c10s).2 1 ⟨⟨9, 9, 9⟩, false⟩ rfl).2 rfl |>.2⟩

end
